import Mathlib

/-!
Verification of the execution core of the `ethereumjs-vm` repository.

The development shallow-embeds the parts of the source needed by the
claims under scrutiny:

* the opcode-level run state and the gas helpers `subGas` / `subMemUsage`
  (`lib/opFns.js`, given here as `src/unnamed/part_001`);
* the `SSTORE` pricing logic, `CALLDATASIZE`, `DELEGATECALL` and the
  `makeCall` dispatch helper from the same file;
* the contract-creation finalization in `lib/runCall.js`
  (`parseRunResult` / `saveCode`) and the value-transfer helpers;
* the journaled account cache (`lib/cache.js`) and the `StateManager`
  (`src/unnamed/part_000`), including the per-contract storage-trie cache;
* the log bloom filter (`lib/bloom.js`);
* the receipt loop of `lib/runBlock.js`.

Machine integers (`BN` values) are modelled as `Nat` with explicit
truncation where the source truncates; fallible code returns
`Except Err`.  JavaScript-specific behaviour that the source relies on
(object truthiness, `const` bindings) is modelled explicitly where a
claim hinges on it.
-/

namespace EvmCore

/-! Gas fee constants.  These come from the `ethereum-common` fee table,
an external collaborator of the repository (spec section 6); the values
are the Homestead ones the spec quotes (Gsreset = 5000, Gsrefund = 15000,
Gmemory = 3, Gquadcoef = 512, GcreateData = 200, stack limit 1024). -/

def memoryGas : Nat := 3

def quadCoeffDiv : Nat := 512

def sstoreSetGas : Nat := 20000

def sstoreResetGas : Nat := 5000

def sstoreRefundGas : Nat := 15000

def createDataGas : Nat := 200

def stackLimit : Nat := 1024

/-- Frame-level error kinds (`constants.ERROR` in the source). -/
inductive Err where
  | outOfGas
  | invalidJump
  | stackUnderflow
  deriving Repr, DecidableEq

/-- The account record as the opcode layer sees it (`runState.contract`):
nonce and balance are the fields the embedded operations touch. -/
structure Account where
  nonce : Nat
  balance : Nat
  deriving Repr, DecidableEq

/-- The per-frame run state (`runState` in `part_001`), restricted to the
fields the embedded operations read or write. -/
structure RunState where
  gasLeft : Nat
  gasRefund : Nat
  memoryWordCount : Nat
  highestMemCost : Nat
  stack : List Nat
  depth : Nat
  address : Nat
  caller : Nat
  origin : Nat
  callValue : Nat
  callData : List Nat
  contract : Account
  deriving Repr, DecidableEq

/-- The `subGas` helper, `part_001` lines 688-693: deduct `amount` from
`gasLeft` and trap with OUT_OF_GAS when the balance would go negative.
(The source mutates `gasLeft` in place before checking; on the trapping
path the frame is abandoned, so only the non-trapping result is
observable.) -/
def subGas (runState : RunState) (amount : Nat) : Except Err RunState :=
  if runState.gasLeft < amount then .error .outOfGas
  else .ok { runState with gasLeft := runState.gasLeft - amount }

/-- A JavaScript value in the `length` argument position of `subMemUsage`.
Every opcode handler passes a BN object; `undefined` (or a plain numeric 0)
can only arrive from a call site that omits the argument. -/
inductive JsVal where
  | undefined
  | bn (n : Nat)
  deriving Repr, DecidableEq

/-- JavaScript truthiness of `!v`: `true` for `undefined`, `false` for
every object — a BN instance is an object, so a BN holding zero is still
truthy and `!length` is `false` for it. -/
def jsFalsy : JsVal → Bool
  | .undefined => true
  | .bn _ => false

/-- Numeric value of a `JsVal` (BN contents; `undefined` never reaches an
arithmetic position on the paths the embedding covers). -/
def JsVal.toNat : JsVal → Nat
  | .undefined => 0
  | .bn n => n

/-- The memory cost formula of `part_001` line 722:
`words * 3 + words ^ 2 / 512` (`fee = memoryGas`, `quadCoeff =
quadCoeffDiv`, BN division truncating). -/
def memCost (words : Nat) : Nat :=
  words * memoryGas + words * words / quadCoeffDiv

/-- The `subMemUsage` helper, `part_001` lines 709-728.  The JS guard
`if (!length) return` is the truthiness test `jsFalsy`;
`offset.add(length).divn(32)` is truncating division. -/
def subMemUsage (runState : RunState) (offset : Nat) (length : JsVal) :
    Except Err RunState :=
  if jsFalsy length then .ok runState
  else
    let newMemoryWordCount := (offset + length.toNat) / 32
    if newMemoryWordCount ≤ runState.memoryWordCount then .ok runState
    else
      let expanded := { runState with memoryWordCount := newMemoryWordCount }
      let cost := memCost newMemoryWordCount
      if expanded.highestMemCost < cost then
        match subGas expanded (cost - expanded.highestMemCost) with
        | .error e => .error e
        | .ok rs => .ok { rs with highestMemCost := cost }
      else .ok expanded

/-- The `CALLDATASIZE` handler, `part_001` lines 202-208: the special case
returns 0 when the call data is the single byte `0x00`. -/
def CALLDATASIZE (runState : RunState) : Nat :=
  if runState.callData.length = 1 ∧ runState.callData.headD 1 = 0 then 0
  else runState.callData.length

/-- The gas and refund logic of the `SSTORE` handler, `part_001` lines
326-356.  `value` is the unpadded new word (`value.length === 0` iff the
word is zero) and `found` is the rlp-decoded current word (empty iff the
slot is absent, i.e. zero).  The storage write itself goes through the
StateManager, embedded separately in namespace `State`. -/
def SSTORE (runState : RunState) (value found : Nat) : Except Err RunState :=
  if value = 0 ∧ found = 0 then
    subGas runState sstoreResetGas
  else if value = 0 ∧ found ≠ 0 then
    match subGas runState sstoreResetGas with
    | .error e => .error e
    | .ok rs => .ok { rs with gasRefund := rs.gasRefund + sstoreRefundGas }
  else if value ≠ 0 ∧ found = 0 then
    subGas runState sstoreSetGas
  else
    subGas runState sstoreResetGas

/-- The option record handed from a CALL-family handler to `makeCall` and
on to `runCall` (`options` in `part_001`, `opts` in `runCall.js`),
restricted to the fields those functions consult. -/
structure CallOptions where
  gasLimit : Nat
  value : Nat
  toAddr : Option Nat
  caller : Option Nat
  delegatecall : Bool
  deriving Repr, DecidableEq

/-- Outcome of `makeCall`: either the fail-fast branch that pushes 0 on
the parent stack without entering the child, or entry into `runCall` with
the prepared options. -/
inductive MakeCallOutcome where
  | shortCircuit (runState : RunState)
  | enterChild (runState : RunState) (callOptions : CallOptions)
  deriving Repr, DecidableEq

/-- The `makeCall` dispatch helper, `part_001` lines 810-834.  The guard
on line 823 pushes 0 and returns without touching any account when the
depth limit is reached or (for a non-delegatecall) the caller balance is
below the value; otherwise the (possibly nonce-incremented, for creation)
contract is written back and `runCall` is entered. -/
def makeCall (runState : RunState) (callOptions : CallOptions) : MakeCallOutcome :=
  let callOptions :=
    { callOptions with caller := some (callOptions.caller.getD runState.address) }
  if stackLimit ≤ runState.depth ∨
      (callOptions.delegatecall ≠ true ∧ runState.contract.balance < callOptions.value) then
    .shortCircuit { runState with stack := runState.stack ++ [0] }
  else
    let contract :=
      if callOptions.toAddr = none then
        { runState.contract with nonce := runState.contract.nonce + 1 }
      else runState.contract
    .enterChild { runState with contract := contract } callOptions

/-- The option record built by the `DELEGATECALL` handler, `part_001`
lines 587-593: the callee runs at the parent's `address`, with the
parent's `caller` and the parent's `callValue`, and `delegatecall` is
set. -/
def DELEGATECALL (runState : RunState) (gas : Nat) : CallOptions :=
  { gasLimit := gas
    value := runState.callValue
    toAddr := some runState.address
    caller := some runState.caller
    delegatecall := true }

/-- The child frame parameters `runCall.js` passes to the interpreter
(`runCodeOpts`, lines 126-139), restricted to the context fields. -/
structure RunCodeOpts where
  address : Nat
  caller : Nat
  callValue : Nat
  deriving Repr, DecidableEq

/-- The `subTxValue` helper, `runCall.js` lines 79-85: debit the caller
unless this is a delegatecall. -/
def subTxValue (delegatecall : Bool) (balances : Nat → Nat)
    (caller txValue : Nat) : Nat → Nat :=
  if delegatecall then balances
  else fun a => if a = caller then balances caller - txValue else balances a

/-- The `addTxValue` helper, `runCall.js` lines 87-94: credit the callee
unless this is a delegatecall. -/
def addTxValue (delegatecall : Bool) (balances : Nat → Nat)
    (toAddress txValue : Nat) : Nat → Nat :=
  if delegatecall then balances
  else fun a => if a = toAddress then balances toAddress + txValue else balances a

/-- The frame-construction slice of `runCall.js` for a call with a `to`
address: value transfer (`subTxValue` at line 50, `addTxValue` at line
97) followed by the child `runCodeOpts` whose `address` is the `to`
address, whose `caller` is `opts.caller` and whose `value` is the
transferred value. -/
def runCallFrame (caller toAddress txValue : Nat) (delegatecall : Bool)
    (balances : Nat → Nat) : RunCodeOpts × (Nat → Nat) :=
  let balances := subTxValue delegatecall balances caller txValue
  let balances := addTxValue delegatecall balances toAddress txValue
  ({ address := toAddress, caller := caller, callValue := txValue }, balances)

/-- Composition of `makeCall`'s caller defaulting with `runCall`'s frame
construction: how a child frame is set up from the parent state and the
options a CALL-family handler built. -/
def dispatchChild (callOptions : CallOptions) (runState : RunState)
    (balances : Nat → Nat) : RunCodeOpts × (Nat → Nat) :=
  runCallFrame (callOptions.caller.getD runState.address)
    (callOptions.toAddr.getD 0) callOptions.value callOptions.delegatecall balances

/-- The result record `runCode` hands back to `runCall`
(`results` in `parseRunResult`), restricted to the consulted fields.
`exception` follows the Homestead convention: 0 = failure, 1 = success. -/
structure VmResults where
  ret : List Nat
  gasUsed : Nat
  exception : Nat
  exceptionError : Option Err
  logs : List (List Nat)
  deriving Repr, DecidableEq

/-- Whether `parseRunResult` commits or reverts the StateManager
checkpoint opened at the top of `runCall`. -/
inductive StateAction where
  | commit
  | revert
  deriving Repr, DecidableEq

/-- The `parseRunResult` continuation of `runCall.js`, lines 145-172.
For a contract creation (`createdAddress` set) it charges
`return.length * createDataGas` on success, and fails the creation —
clearing the return value, consuming the whole gas limit and setting the
exception code to 0 — when the total exceeds `gasLimit` or the return is
longer than 24576 bytes.  An error reverts the checkpoint (dropping the
logs), otherwise it is committed. -/
def parseRunResult (createdAddress : Bool) (gasLimit : Nat)
    (results : VmResults) (err : Option Err) :
    VmResults × Option Err × StateAction :=
  let (results, err) :=
    if createdAddress then
      let returnFee := results.ret.length * createDataGas
      let totalGas := results.gasUsed + returnFee
      if totalGas ≤ gasLimit ∧ results.ret.length ≤ 24576 then
        ({ results with gasUsed := totalGas }, err)
      else
        ({ results with
            ret := []
            exception := 0
            exceptionError := some .outOfGas
            gasUsed := gasLimit }, some .outOfGas)
    else (results, err)
  match err with
  | some e => ({ results with logs := [] }, some e, .revert)
  | none => (results, none, .commit)

/-- The `saveCode` step of `runCall.js`, lines 175-182: code is stored at
the created address precisely when this was a creation and the (possibly
cleared) return value is a nonempty byte string
(`vmResults.return.toString() !== ''`). -/
def saveCode (createdAddress : Bool) (ret : List Nat) : Bool :=
  createdAddress && !ret.isEmpty

/-! The log bloom filter, `lib/bloom.js`.  The 256-byte bit vector is a
function from byte index to byte value.  `utils.sha3` (keccak-256) is an
external collaborator of the repository, so `add` and `check` take the
hashing function as a parameter; both hash the element first, exactly as
the source does. -/

/-- `byteSize` from `lib/bloom.js` line 3. -/
def byteSize : Nat := 256

/-- The all-zero 2048-bit vector (`utils.zeros(byteSize)`). -/
def zeroBitvector : Nat → Nat := fun _ => 0

/-- Big-endian 16-bit read `e.readUInt16BE(i)` on a byte list. -/
def readUInt16BE (e : List Nat) (i : Nat) : Nat :=
  (e.getD i 0) * 256 + e.getD (i + 1) 0

/-- `Bloom.add`, `lib/bloom.js` lines 25-36: hash the element, take three
11-bit slices (`mask = 2047`) of the first six hash bytes, and set the
bit `1 <<< (loc % 8)` of byte `byteSize - (loc >>> 3) - 1`. -/
def bloomAdd (sha3 : List Nat → List Nat) (bitvector : Nat → Nat)
    (e : List Nat) : Nat → Nat :=
  let h := sha3 e
  let mask := 2047
  (List.range 3).foldl (fun bv i =>
    let first2bytes := readUInt16BE h (i * 2)
    let loc := mask &&& first2bytes
    let byteLoc := loc >>> 3
    let bitLoc := 1 <<< (loc % 8)
    fun j => if j = byteSize - byteLoc - 1 then bv j ||| bitLoc else bv j)
    bitvector

/-- `Bloom.check`, `lib/bloom.js` lines 43-57: hash the element, take
three slices of the first six hash bytes — with `mask = 511` — and test
the corresponding bits. -/
def bloomCheck (sha3 : List Nat → List Nat) (bitvector : Nat → Nat)
    (e : List Nat) : Bool :=
  let h := sha3 e
  let mask := 511
  (List.range 3).all (fun i =>
    let first2bytes := readUInt16BE h (i * 2)
    let loc := mask &&& first2bytes
    let byteLoc := loc >>> 3
    let bitLoc := 1 <<< (loc % 8)
    (bitvector (byteSize - byteLoc - 1) &&& bitLoc) != 0)

/-! The receipt loop of `lib/runBlock.js` (`processTransactions`, lines
78-134).  `runTx` is outside the excerpted surface; the loop is embedded
over the per-transaction results a successful `runTx` hands to
`parseTxResult`. -/

/-- A JavaScript binding: a `const` binding cannot be reassigned. -/
inductive JsBinding where
  | constB (v : Nat)
  | letB (v : Nat)
  deriving Repr, DecidableEq

/-- The JavaScript `x++` operation on a binding: assignment to a `const`
binding throws a TypeError. -/
def jsIncr : JsBinding → Except String JsBinding
  | .constB _ => .error "TypeError: Assignment to constant variable."
  | .letB v => .ok (.letB (v + 1))

/-- What a successful `runTx` contributes to the receipt loop: the
transaction's own gas limit (checked against the block's) and the result
fields `parseTxResult` reads. -/
structure TxOutcome where
  gasLimit : Nat
  gasUsed : Nat
  logs : List (List Nat)
  deriving Repr, DecidableEq

/-- A transaction receipt as accumulated by `parseTxResult` (cumulative
gas and the transaction's logs; the state root and bloom bitvector are
carried alongside in the source and do not affect the loop). -/
structure Receipt where
  gasUsed : Nat
  logs : List (List Nat)
  deriving Repr, DecidableEq

/-- The `processTransactions` loop of `lib/runBlock.js`, lines 78-134,
for a block whose transactions all succeed.  `validReceiptCount` is
declared `const` on line 79 and incremented on line 131; the increment is
the JavaScript `const` assignment, which throws. -/
def processTransactions (blockGasLimit : Nat) (txs : List TxOutcome) :
    Except String (List Receipt) :=
  (txs.foldlM (fun (st : Nat × JsBinding × List Receipt) (tx : TxOutcome) =>
    let (gasUsed, counter, receipts) := st
    if blockGasLimit < tx.gasLimit + gasUsed then
      Except.error "tx has a higher gas limit than the block"
    else
      let gasUsed := gasUsed + tx.gasUsed
      let receipts := receipts ++ [({ gasUsed := gasUsed, logs := tx.logs } : Receipt)]
      match jsIncr counter with
      | .error e => Except.error e
      | .ok counter => Except.ok (gasUsed, counter, receipts))
    ((0 : Nat), JsBinding.constB 0, ([] : List Receipt))).map
    (fun (st : Nat × JsBinding × List Receipt) => st.2.2)

namespace State

/-! The journaled state store: `lib/cache.js` and the `StateManager` of
`src/unnamed/part_000`.  Addresses and storage keys are `Nat` (the hex
string keying of the source is injective on addresses).  An account's
`stateRoot` is a Merkle root that uniquely determines the content of the
account's storage trie, so it is modelled by that content directly; a
storage value of 0 stands for an absent key (`putContractStorage` deletes
zero values, and an absent key rlp-decodes to the zero word, which is how
`SLOAD` reads it). -/

/-- Account record (from the external `ethereumjs-account` package):
nonce, balance, storage root and code hash. -/
structure Account where
  nonce : Nat
  balance : Nat
  stateRoot : Nat → Nat
  codeHash : Nat

/-- A freshly constructed `new Account()` -/
def emptyAccount : Account :=
  { nonce := 0, balance := 0, stateRoot := fun _ => 0, codeHash := 0 }

/-- One entry of the account cache (`_update` in `lib/cache.js`);
`existsF` is the source's `exists` flag. -/
structure CacheEntry where
  val : Account
  modified : Bool
  existsF : Bool

/-- The account cache of `lib/cache.js`: a persistent map (the source
uses a functional red-black tree, so pushing the map reference onto
`_checkpoints` snapshots it), a checkpoint stack, and the journal of
pending deletions.  The top of the JS array `_checkpoints` is the head of
the list. -/
structure Cache where
  cache : Nat → Option CacheEntry
  checkpoints : List (Nat → Option CacheEntry)
  deletes : List Nat

/-- An empty cache over a fresh trie. -/
def Cache.empty : Cache :=
  { cache := fun _ => none, checkpoints := [], deletes := [] }

/-- `Cache._update`, lines 133-149. -/
def Cache._update (c : Cache) (key : Nat) (val : Account)
    (modified existsF : Bool) : Cache :=
  let entry : CacheEntry :=
    match c.cache key with
    | some _ => { val := val, modified := modified, existsF := true }
    | none => { val := val, modified := modified, existsF := existsF }
  { c with cache := fun k => if k = key then some entry else c.cache k }

/-- `Cache.put`, lines 14-17 (`fromTrie` false, so `modified` true). -/
def Cache.put (c : Cache) (key : Nat) (val : Account) : Cache :=
  c._update key val true true

/-- `Cache.get`, lines 20-27: the cached account, or an empty
non-existing account. -/
def Cache.get (c : Cache) (key : Nat) : Account :=
  match c.cache key with
  | some e => e.val
  | none => emptyAccount

/-- `Cache.del`, lines 127-131: journal the key for deletion at flush and
drop it from the cache.  The journal is NOT snapshotted by `checkpoint`. -/
def Cache.del (c : Cache) (key : Nat) : Cache :=
  { c with
    deletes := c.deletes ++ [key]
    cache := fun k => if k = key then none else c.cache k }

/-- `Cache.checkpoint`, lines 110-112: push the (persistent) map. -/
def Cache.checkpoint (c : Cache) : Cache :=
  { c with checkpoints := c.cache :: c.checkpoints }

/-- `Cache.revert`, lines 114-116: pop the stack and restore the map.
(The source pops unconditionally; popping an empty stack is never
exercised and is modelled as a no-op on the map.) -/
def Cache.revert (c : Cache) : Cache :=
  { c with
    cache := c.checkpoints.headD c.cache
    checkpoints := c.checkpoints.tail }

/-- `Cache.commit`, lines 118-120: pop without restoring. -/
def Cache.commit (c : Cache) : Cache :=
  { c with checkpoints := c.checkpoints.tail }

/-- The Merkle-Patricia trie holding the accounts — an external
collaborator (spec section 6): an opaque journaled key-value store with
`checkpoint` / `commit` / `revert`, `put`, `get` and `del`.  Values are
accounts (serialization is abstracted away). -/
structure Trie where
  data : Nat → Option Account
  checkpoints : List (Nat → Option Account)

def Trie.checkpoint (t : Trie) : Trie :=
  { t with checkpoints := t.data :: t.checkpoints }

def Trie.commit (t : Trie) : Trie :=
  { t with checkpoints := t.checkpoints.tail }

def Trie.revert (t : Trie) : Trie :=
  { t with data := t.checkpoints.headD t.data
           checkpoints := t.checkpoints.tail }

def Trie.put (t : Trie) (key : Nat) (val : Account) : Trie :=
  { t with data := fun k => if k = key then some val else t.data k }

def Trie.del (t : Trie) (key : Nat) : Trie :=
  { t with data := fun k => if k = key then none else t.data k }

/-- `Cache.flush`, lines 81-108: write every modified entry through to
the trie (clearing its `modified` flag), then apply the pending
deletions, then clear the deletion journal. -/
def Cache.flush (c : Cache) (trie : Trie) : Cache × Trie :=
  let written : Nat → Option Account := fun k =>
    match c.cache k with
    | some e => if e.modified then some e.val else trie.data k
    | none => trie.data k
  let afterDeletes : Nat → Option Account := fun k =>
    if k ∈ c.deletes then none else written k
  ({ c with
      cache := fun k => (c.cache k).map fun e => { e with modified := false }
      deletes := [] },
   { trie with data := afterDeletes })

/-- The `StateManager` of `src/unnamed/part_000`: the account trie, the
account cache over it, and `_storageTries`, the cache of per-contract
storage tries. -/
structure StateManager where
  trie : Trie
  storageTries : Nat → Option (Nat → Nat)
  cache : Cache

/-- `Cache.getOrLoad`, `lib/cache.js` lines 51-62: the cached account, or
a lookup in the trie whose result is cached unmodified. -/
def Cache.getOrLoad (c : Cache) (trie : Trie) (key : Nat) :
    Account × Cache :=
  match c.cache key with
  | some e => (e.val, c)
  | none =>
    let raw := trie.data key
    let account := raw.getD emptyAccount
    (account, c._update key account false raw.isSome)

/-- `StateManager.getAccount`, `part_000` lines 139-141. -/
def StateManager.getAccount (sm : StateManager) (address : Nat) :
    Account × StateManager :=
  let (account, cache) := sm.cache.getOrLoad sm.trie address
  (account, { sm with cache := cache })

/-- `StateManager._getStorageTrie`, `part_000` lines 221-229: the cached
storage trie if present, else `_lookupStorageTrie` (lines 207-218), which
materializes the trie rooted at the account's `stateRoot`. -/
def StateManager._getStorageTrie (sm : StateManager) (address : Nat) :
    (Nat → Nat) × StateManager :=
  match sm.storageTries address with
  | some storageTrie => (storageTrie, sm)
  | none =>
    let (account, sm) := sm.getAccount address
    (account.stateRoot, sm)

/-- `StateManager.getContractStorage`, `part_000` lines 231-244 (the
rlp-decode of an absent key is the zero word). -/
def StateManager.getContractStorage (sm : StateManager) (address key : Nat) :
    Nat × StateManager :=
  let (storageTrie, sm) := sm._getStorageTrie address
  (storageTrie key, sm)

/-- `StateManager.putContractStorage`, `part_000` lines 246-272: write
(or, for a zero value, delete) the key in the storage trie, cache the
mutated trie in `_storageTries`, and store the new root on the cached
account. -/
def StateManager.putContractStorage (sm : StateManager)
    (address key value : Nat) : StateManager :=
  let (storageTrie, sm) := sm._getStorageTrie address
  let storageTrie' := fun k => if k = key then value else storageTrie k
  let sm := { sm with storageTries := fun a =>
    if a = address then some storageTrie' else sm.storageTries a }
  let contract := sm.cache.get address
  let contract := { contract with stateRoot := storageTrie' }
  { sm with cache := sm.cache.put address contract }

/-- `StateManager.checkpoint`, `part_000` lines 308-311: checkpoint the
trie and the cache.  `_storageTries` is untouched. -/
def StateManager.checkpoint (sm : StateManager) : StateManager :=
  { sm with trie := sm.trie.checkpoint, cache := sm.cache.checkpoint }

/-- `StateManager.commit`, `part_000` lines 313-320. -/
def StateManager.commit (sm : StateManager) : StateManager :=
  { sm with trie := sm.trie.commit, cache := sm.cache.commit }

/-- `StateManager.revert`, `part_000` lines 322-328: revert the trie and
the cache.  Neither `_storageTries` (the mutated storage tries stay
cached; `revertContracts` exists at lines 288-290 but is not called) nor
the cache's deletion journal is restored. -/
def StateManager.revert (sm : StateManager) : StateManager :=
  { sm with trie := sm.trie.revert, cache := sm.cache.revert }

/-- Account deletion goes through `stateManager.cache.del` (its callers —
the suicide processing of `runTx` — are outside the excerpted surface). -/
def StateManager.cacheDel (sm : StateManager) (key : Nat) : StateManager :=
  { sm with cache := sm.cache.del key }

/-- The `cacheFlush` step (`getStateRoot`, `part_000` lines 333-341):
flush the account cache into the trie. -/
def StateManager.flushed (sm : StateManager) : StateManager :=
  let (cache, trie) := sm.cache.flush sm.trie
  { sm with cache := cache, trie := trie }

end State

/-! Concrete fixtures used to evaluate the embedded operations. -/

/-- A fresh frame: empty memory, empty stack, depth 0, a caller holding
1000 wei, 100000 gas. -/
def baseState : RunState :=
  { gasLeft := 100000
    gasRefund := 0
    memoryWordCount := 0
    highestMemCost := 0
    stack := []
    depth := 0
    address := 170
    caller := 187
    origin := 187
    callValue := 7
    callData := []
    contract := { nonce := 0, balance := 1000 } }

/-- An existing account stored in the trie at address 7. -/
def acct7 : State.Account :=
  { nonce := 1, balance := 42, stateRoot := fun _ => 0, codeHash := 0 }

/-- A StateManager over a trie holding exactly `acct7`, with a cold cache
and no cached storage tries. -/
def sm0 : State.StateManager :=
  { trie := { data := fun k => if k = 7 then some acct7 else none, checkpoints := [] }
    storageTries := fun _ => none
    cache := State.Cache.empty }

/-- A 32-byte hash whose bytes are all `0xff`: the keccak-256 output of
roughly one element in every 2048 has its first 11-bit slice ≥ 512, and
this is the extreme such output. -/
def hashFF : List Nat := List.replicate 32 255

/-! Theorems settling the claims. -/

/-- C1: the claim says that after `checkpoint()` … `revert()` the state
visible through the StateManager (cache, pending deletions applied at
flush, and storage) equals the state before the checkpoint.  The code
refutes it: a storage write between checkpoint and revert stays visible
(the mutated storage trie remains cached in `_storageTries`, which
`revert` does not clear), and a `Cache.del` between checkpoint and revert
still deletes the account at flush (the `_deletes` journal is not
snapshotted).  Evaluated here at concrete inputs: before the checkpoint
slot 2 of account 1 reads 0 and account 7 survives a flush; after
checkpoint → write/delete → revert, the slot reads 5 and the flush drops
account 7. -/
theorem checkpoint_revert_not_identity :
    ((sm0.checkpoint.putContractStorage 1 2 5).revert.getContractStorage 1 2).1 = 5 ∧
    (sm0.getContractStorage 1 2).1 = 0 ∧
    ((((sm0.checkpoint.cacheDel 7).revert.flushed).trie.data 7).isNone = true ∧
      ((sm0.flushed).trie.data 7).isSome = true) := by
  exact ⟨rfl, rfl, rfl, rfl⟩

/-- Strict monotonicity of the memory cost formula. -/
lemma memCost_strictMono {a b : Nat} (h : a < b) : memCost a < memCost b := by
  unfold memCost
  exact add_lt_add_of_lt_of_le
    (mul_lt_mul_of_pos_right h (by norm_num [memoryGas]))
    (Nat.div_le_div_right (Nat.mul_le_mul h.le h.le))

/-- C3 counterexample: the claim says an access `[0, 1)` on a fresh frame
makes the word count `⌈1/32⌉ = 1`; the code computes
`offset.add(length).divn(32)`, a truncating division, and leaves the word
count at 0. -/
theorem subMemUsage_ceiling_cex :
    (subMemUsage baseState 0 (JsVal.bn 1)).map RunState.memoryWordCount ≠
      Except.ok ((0 + 1 + 31) / 32) := by
  intro h
  have h0 : (subMemUsage baseState 0 (JsVal.bn 1)).map RunState.memoryWordCount =
      Except.ok 0 := rfl
  rw [h0] at h
  exact absurd (Except.ok.inj h) (by decide)

/-- C3 amended: with `⌊(o+l)/32⌋` in place of `⌈(o+l)/32⌉`, the claim
holds: when the floor exceeds the current word count, the word count
becomes that floor and the charge is `c(new) − c(old)` (equivalently
`cost − highestMemCost`, since within a frame `highestMemCost` is the
cost of the current word count), applied only because the new cost
exceeds the old high-water mark. -/
theorem subMemUsage_expansion (rs : RunState) (offset l : Nat)
    (hinv : rs.highestMemCost = memCost rs.memoryWordCount)
    (hword : rs.memoryWordCount < (offset + l) / 32)
    (hgas : memCost ((offset + l) / 32) - memCost rs.memoryWordCount ≤ rs.gasLeft) :
    subMemUsage rs offset (JsVal.bn l) =
      Except.ok { rs with
        memoryWordCount := (offset + l) / 32
        highestMemCost := memCost ((offset + l) / 32)
        gasLeft := rs.gasLeft -
          (memCost ((offset + l) / 32) - memCost rs.memoryWordCount) } := by
  have hcost : rs.highestMemCost < memCost ((offset + l) / 32) := by
    rw [hinv]; exact memCost_strictMono hword
  have hgas' : memCost ((offset + l) / 32) - rs.highestMemCost ≤ rs.gasLeft := by
    rw [hinv]; exact hgas
  rw [← hinv]
  simp only [subMemUsage, jsFalsy, JsVal.toNat, Bool.false_eq_true, if_false]
  rw [if_neg (Nat.not_le.mpr hword)]
  rw [if_pos hcost]
  unfold subGas
  rw [if_neg (Nat.not_lt.mpr hgas')]

/-- C3 amended, witness: a fresh frame accessing `[0, 64)` expands to 2
words and pays `c(2) − c(0) = 6` gas. -/
theorem subMemUsage_expansion_witness :
    subMemUsage baseState 0 (JsVal.bn 64) =
      Except.ok { baseState with
        memoryWordCount := 2
        highestMemCost := 6
        gasLeft := 99994 } := by
  have h := subMemUsage_expansion baseState 0 64 (by norm_num [baseState, memCost])
    (by norm_num [baseState]) (by norm_num [baseState, memCost, memoryGas, quadCoeffDiv])
  simpa [baseState, memCost, memoryGas, quadCoeffDiv] using h

/-- C4: the claim says a zero-length access changes nothing; the code
refutes it.  The guard `if (!length) return` never fires for a BN length
(a BN object is truthy even when it holds zero), so the access
`[64, 64+0)` on a fresh frame raises the word count to 2, the high-water
mark to 6, and charges 6 gas. -/
theorem subMemUsage_zero_length_charges :
    (subMemUsage baseState 64 (JsVal.bn 0)).map RunState.memoryWordCount =
      Except.ok 2 ∧
    (subMemUsage baseState 64 (JsVal.bn 0)).map RunState.highestMemCost =
      Except.ok 6 ∧
    (subMemUsage baseState 64 (JsVal.bn 0)).map RunState.gasLeft =
      Except.ok 99994 := by
  exact ⟨rfl, rfl, rfl⟩

/-- C5: the SSTORE pricing table.  Writing `v` over current value `w`
charges Gsset (20000) exactly when `v ≠ 0 ∧ w = 0` and Gsreset (5000)
otherwise, and adds the Gsrefund (15000) refund exactly when
`v = 0 ∧ w ≠ 0`. -/
theorem sstore_pricing (rs : RunState) (v w : Nat)
    (hgas : sstoreSetGas ≤ rs.gasLeft) :
    ∃ rs', SSTORE rs v w = Except.ok rs' ∧
      rs'.gasLeft = rs.gasLeft -
        (if v ≠ 0 ∧ w = 0 then sstoreSetGas else sstoreResetGas) ∧
      rs'.gasRefund = rs.gasRefund +
        (if v = 0 ∧ w ≠ 0 then sstoreRefundGas else 0) := by
  have hreset : ¬ rs.gasLeft < sstoreResetGas :=
    Nat.not_lt.mpr (le_trans (by norm_num [sstoreResetGas, sstoreSetGas]) hgas)
  have hset : ¬ rs.gasLeft < sstoreSetGas := Nat.not_lt.mpr hgas
  rcases Nat.eq_zero_or_pos v with hv | hv <;>
    rcases Nat.eq_zero_or_pos w with hw | hw
  · subst hv; subst hw
    refine ⟨{ rs with gasLeft := rs.gasLeft - sstoreResetGas }, ?_, ?_, ?_⟩
    · simp [SSTORE, subGas, hreset]
    · simp
    · simp
  · subst hv
    have hw' : w ≠ 0 := Nat.pos_iff_ne_zero.mp hw
    refine ⟨{ rs with
              gasLeft := rs.gasLeft - sstoreResetGas
              gasRefund := rs.gasRefund + sstoreRefundGas }, ?_, ?_, ?_⟩
    · simp [SSTORE, subGas, hreset, hw']
    · simp [hw']
    · simp [hw']
  · subst hw
    have hv' : v ≠ 0 := Nat.pos_iff_ne_zero.mp hv
    refine ⟨{ rs with gasLeft := rs.gasLeft - sstoreSetGas }, ?_, ?_, ?_⟩
    · simp [SSTORE, subGas, hset, hv']
    · simp [hv']
    · simp [hv']
  · have hv' : v ≠ 0 := Nat.pos_iff_ne_zero.mp hv
    have hw' : w ≠ 0 := Nat.pos_iff_ne_zero.mp hw
    refine ⟨{ rs with gasLeft := rs.gasLeft - sstoreResetGas }, ?_, ?_, ?_⟩
    · simp [SSTORE, subGas, hreset, hv', hw']
    · simp [hv', hw']
    · simp [hv', hw']

/-- C5 witness: the spec's clear-refund scenario — storing 0 over 1
charges 5000 and refunds 15000. -/
theorem sstore_pricing_witness :
    ∃ rs', SSTORE baseState 0 1 = Except.ok rs' ∧
      rs'.gasLeft = 95000 ∧ rs'.gasRefund = 15000 := by
  obtain ⟨rs', h1, h2, h3⟩ :=
    sstore_pricing baseState 0 1 (by norm_num [sstoreSetGas, baseState])
  refine ⟨rs', h1, ?_, ?_⟩
  · simpa [baseState, sstoreResetGas] using h2
  · simpa [baseState, sstoreRefundGas] using h3

/-- C6: when the caller's balance is below the transferred value (which
is the option value for CALL / CALLCODE / CREATE and zero for
DELEGATECALL, which transfers nothing) or the depth has reached the 1024
stack limit, `makeCall` never enters the child: it pushes 0 on the parent
stack and leaves every other part of the frame — in particular the
caller's account and balance — untouched. -/
theorem makeCall_failfast (rs : RunState) (opts : CallOptions)
    (h : rs.contract.balance < (if opts.delegatecall then 0 else opts.value) ∨
      stackLimit ≤ rs.depth) :
    makeCall rs opts = .shortCircuit { rs with stack := rs.stack ++ [0] } ∧
    ({ rs with stack := rs.stack ++ [0] } : RunState).contract = rs.contract := by
  refine ⟨?_, rfl⟩
  have hguard : stackLimit ≤ rs.depth ∨
      (opts.delegatecall ≠ true ∧ rs.contract.balance < opts.value) := by
    rcases h with h | h
    · cases hd : opts.delegatecall
      · rw [hd] at h
        simp only [Bool.false_eq_true, if_false] at h
        exact Or.inr ⟨by simp [hd], h⟩
      · rw [hd] at h
        simp only [if_true] at h
        exact absurd h (Nat.not_lt_zero _)
    · exact Or.inl h
  simp only [makeCall]
  rw [if_pos]
  exact hguard

/-- C6 witness: a CALL at the depth limit fails fast. -/
theorem makeCall_failfast_witness :
    makeCall { baseState with depth := 1024 }
        { gasLimit := 5000, value := 0, toAddr := some 1, caller := none,
          delegatecall := false } =
      .shortCircuit { baseState with depth := 1024, stack := [0] } :=
  (makeCall_failfast { baseState with depth := 1024 } _
    (Or.inr (by norm_num [stackLimit, baseState]))).1

/-- C7: the options built by DELEGATECALL, run through `makeCall`'s
caller defaulting and `runCall`'s frame construction, give the child
frame the parent's `address` (so SSTORE inside the callee, which writes
to the frame's `address`, targets the parent's storage), the parent's
`caller` and the parent's `callValue`, and leave every account balance
unchanged (`subTxValue` and `addTxValue` return immediately for a
delegatecall). -/
theorem delegatecall_preserves_context (rs : RunState) (gas : Nat)
    (balances : Nat → Nat) :
    dispatchChild (DELEGATECALL rs gas) rs balances =
      ({ address := rs.address, caller := rs.caller,
         callValue := rs.callValue }, balances) := rfl

/-- C2: contract-creation finalization.  For a creation whose init-code
ran to completion, if `gasUsed + |ret| · createDataGas` exceeds the gas
limit or `|ret| > 24576`, the creation fails: the return value is
cleared, the gas used becomes the whole limit, the exception code
reported to the parent becomes 0, the checkpoint is reverted (and the
logs dropped), and no code is stored; otherwise the checkpoint is
committed, the per-byte fee is added to the gas used, and the returned
bytes (when nonempty) are stored as the contract's code. -/
theorem create_finalize (gasLimit : Nat) (results : VmResults) :
    (gasLimit < results.gasUsed + results.ret.length * createDataGas ∨
        24576 < results.ret.length →
      parseRunResult true gasLimit results none =
        ({ results with
            ret := []
            exception := 0
            exceptionError := some .outOfGas
            gasUsed := gasLimit
            logs := [] },
          some .outOfGas, .revert) ∧
      saveCode true (parseRunResult true gasLimit results none).1.ret = false) ∧
    (results.gasUsed + results.ret.length * createDataGas ≤ gasLimit ∧
        results.ret.length ≤ 24576 →
      parseRunResult true gasLimit results none =
        ({ results with
            gasUsed := results.gasUsed + results.ret.length * createDataGas },
          none, .commit) ∧
      (results.ret ≠ [] →
        saveCode true (parseRunResult true gasLimit results none).1.ret = true)) := by
  constructor
  · intro h
    have hc : ¬(results.gasUsed + results.ret.length * createDataGas ≤ gasLimit ∧
        results.ret.length ≤ 24576) := by
      rcases h with h | h
      · exact fun hc => absurd hc.1 (Nat.not_le.mpr h)
      · exact fun hc => absurd hc.2 (Nat.not_le.mpr h)
    have heq : parseRunResult true gasLimit results none =
        ({ results with
            ret := []
            exception := 0
            exceptionError := some .outOfGas
            gasUsed := gasLimit
            logs := [] },
          some .outOfGas, .revert) := by
      simp only [parseRunResult, if_true]
      rw [if_neg hc]
    refine ⟨heq, ?_⟩
    rw [heq]
    rfl
  · intro h
    have heq : parseRunResult true gasLimit results none =
        ({ results with
            gasUsed := results.gasUsed + results.ret.length * createDataGas },
          none, .commit) := by
      simp only [parseRunResult, if_true]
      rw [if_pos h]
    refine ⟨heq, fun hne => ?_⟩
    rw [heq]
    simp [saveCode, hne]

/-- C2 witness: a creation returning 3 bytes with 50 gas used against a
limit of 100 fails (650 > 100): return cleared, exception 0, gas 100,
revert, no code stored; the same return against a limit of 10000
succeeds: gas becomes 650, commit, and the nonempty return is stored. -/
theorem create_finalize_witness :
    (parseRunResult true 100 ⟨[7, 7, 7], 50, 1, none, [[1]]⟩ none =
      (⟨[], 100, 0, some .outOfGas, []⟩, some .outOfGas, .revert) ∧
      saveCode true (parseRunResult true 100 ⟨[7, 7, 7], 50, 1, none, [[1]]⟩ none).1.ret =
        false) ∧
    (parseRunResult true 10000 ⟨[7, 7, 7], 50, 1, none, []⟩ none =
      (⟨[7, 7, 7], 650, 1, none, []⟩, none, .commit) ∧
      saveCode true (parseRunResult true 10000 ⟨[7, 7, 7], 50, 1, none, []⟩ none).1.ret =
        true) := by
  constructor
  · exact (create_finalize 100 ⟨[7, 7, 7], 50, 1, none, [[1]]⟩).1
      (Or.inl (by norm_num [createDataGas]))
  · exact ⟨((create_finalize 10000 ⟨[7, 7, 7], 50, 1, none, []⟩).2
        ⟨by norm_num [createDataGas], by norm_num⟩).1,
      ((create_finalize 10000 ⟨[7, 7, 7], 50, 1, none, []⟩).2
        ⟨by norm_num [createDataGas], by norm_num⟩).2 (by decide)⟩

/-- C8: the claim says a block of all-successful transactions yields one
receipt per transaction without an internal abort.  The code refutes it:
`validReceiptCount` is a `const` binding and the `validReceiptCount++`
after the first receipt throws, so a block with a single successful
transaction (gas limit 21000 against a block limit of 1000000) aborts
with a TypeError instead of producing its receipt list. -/
theorem processTransactions_const_abort :
    processTransactions 1000000 [{ gasLimit := 21000, gasUsed := 21000, logs := [] }] =
      .error "TypeError: Assignment to constant variable." := rfl

/-- C9: the claim says `check` tests exactly the three bits `add` sets
(three 11-bit slices of the hash).  The code refutes it: `add` masks with
2047 but `check` masks with 511, so for any element whose keccak-256 hash
has the high two bits of an 11-bit slice set — here evaluated with the
all-ones hash — `add` sets byte 0 while `check` reads byte 192, and
`check` after `add` returns false. -/
theorem bloom_add_check_mismatch :
    bloomCheck (fun _ => hashFF) (bloomAdd (fun _ => hashFF) zeroBitvector []) [] =
      false := rfl

/-- C10: CALLDATASIZE returns 0 when the frame's call data is exactly the
single byte 0x00, and the byte length of the call data for every other
call data. -/
theorem calldatasize_spec :
    CALLDATASIZE { baseState with callData := [0] } = 0 ∧
    ∀ cd : List Nat, cd ≠ [0] →
      CALLDATASIZE { baseState with callData := cd } = cd.length := by
  refine ⟨rfl, ?_⟩
  intro cd h
  have hcond : ¬(cd.length = 1 ∧ cd.headD 1 = 0) := by
    rintro ⟨h1, h2⟩
    obtain ⟨a, rfl⟩ := List.length_eq_one.mp h1
    simp only [List.headD] at h2
    subst h2
    exact h rfl
  have hcd : ({ baseState with callData := cd } : RunState).callData = cd := rfl
  unfold CALLDATASIZE
  rw [hcd, if_neg hcond]

/-- C10 witness: the one-byte-zero call data reads as size 0, a two-byte
call data as size 2. -/
theorem calldatasize_spec_witness :
    CALLDATASIZE { baseState with callData := [0] } = 0 ∧
    CALLDATASIZE { baseState with callData := [0, 0] } = 2 :=
  ⟨calldatasize_spec.1, calldatasize_spec.2 [0, 0] (by decide)⟩

end EvmCore
